import Mathlib

/-!
Verification of the two tool functions of `parent_folder/multi_tool_agent/agent.py`
(`get_weather` and `get_current_time`) against the repository specification.

The Python functions return plain dicts of the shape
`{"status": "success", "report": ...}` or `{"status": "error", "error_message": ...}`.
We embed that dict as a record with a `status` string and two optional fields, so
that the "exactly one variant populated" invariant is a provable statement rather
than a typing artifact.

Python `str.lower()` is modelled character-wise by `Char.toLower` (ASCII case
mapping), which agrees with CPython on all ASCII input; the matching target
"new york" is ASCII.

`datetime.datetime.now(ZoneInfo("America/New_York"))` is an environment read:
it is modelled by passing the observed zoned wall-clock value (broken-down
fields plus the zone abbreviation and UTC offset delivered by the timezone
database) as an explicit argument `now`, and `strftime("%Y-%m-%d %H:%M:%S %Z%z")`
is modelled by `strftimeZ` below, faithful to CPython on Linux for field values
in the ranges a timezone database can produce (hypotheses `ValidNY`).
-/

/-- The dict shape returned by both tools: a `status` tag plus the two
payload fields, each present or absent. -/
structure LookupResult where
  status : String
  report : Option String
  error_message : Option String
  deriving Repr, DecidableEq

/-- Python `str.lower()`, character-wise ASCII case mapping. -/
def pyLower (s : String) : String :=
  String.mk (s.data.map Char.toLower)

/-- The canned weather report returned on the matching branch, exactly as the
source concatenates it. -/
def weatherReport : String :=
  "The weather in New York is sunny with a temperature of 25 degrees" ++
    " Celsius (77 degrees Fahrenheit)."

/-- Embedding of `get_weather` from `agent.py`: case-insensitive match of `city` against
"new york"; success with the canned report, else error with the input
interpolated verbatim. -/
def get_weather (city : String) : LookupResult :=
  if pyLower city = "new york" then
    { status := "success"
      report := some weatherReport
      error_message := none }
  else
    { status := "error"
      report := none
      error_message :=
        some ("Weather information for \x27" ++ city ++ "\x27 is not available.") }

/-- The observed value of `datetime.datetime.now(ZoneInfo("America/New_York"))`:
broken-down local civil time plus the zone abbreviation (`%Z`) and UTC offset
(`%z`) supplied by the timezone database. -/
structure ZonedDateTime where
  year : Nat
  month : Nat
  day : Nat
  hour : Nat
  minute : Nat
  second : Nat
  tzAbbr : String
  utcOffset : String
  deriving Repr, DecidableEq

/-- Two-digit zero-padded decimal field (`%m`, `%d`, `%H`, `%M`, `%S`). -/
def pad2 (n : Nat) : String :=
  String.mk [Nat.digitChar (n / 10 % 10), Nat.digitChar (n % 10)]

/-- Four-digit zero-padded decimal field (`%Y` for years 1000..9999). -/
def pad4 (n : Nat) : String :=
  String.mk [Nat.digitChar (n / 1000 % 10), Nat.digitChar (n / 100 % 10),
    Nat.digitChar (n / 10 % 10), Nat.digitChar (n % 10)]

/-- Embedding of `now.strftime("%Y-%m-%d %H:%M:%S %Z%z")`. -/
def strftimeZ (d : ZonedDateTime) : String :=
  pad4 d.year ++ "-" ++ pad2 d.month ++ "-" ++ pad2 d.day ++ " " ++
    pad2 d.hour ++ ":" ++ pad2 d.minute ++ ":" ++ pad2 d.second ++ " " ++
    d.tzAbbr ++ d.utcOffset

/-- What the America/New_York timezone database entry can deliver: in-range
calendar fields, a zone abbreviation of EST or EDT, and the matching signed
four-digit UTC offset. This is the environment precondition of the spec. -/
def ValidNY (d : ZonedDateTime) : Prop :=
  1000 ≤ d.year ∧ d.year ≤ 9999 ∧
  1 ≤ d.month ∧ d.month ≤ 12 ∧
  1 ≤ d.day ∧ d.day ≤ 31 ∧
  d.hour ≤ 23 ∧ d.minute ≤ 59 ∧ d.second ≤ 59 ∧
  (d.tzAbbr = "EST" ∨ d.tzAbbr = "EDT") ∧
  (d.utcOffset = "-0500" ∨ d.utcOffset = "-0400")

instance (d : ZonedDateTime) : Decidable (ValidNY d) := by
  unfold ValidNY
  infer_instance

/-- Embedding of `get_current_time` from `agent.py`: case-insensitive match of `city`
against "new york"; on no match return the error dict before any clock or
timezone access; on match format the ambient zoned clock value `now`. -/
def get_current_time (city : String) (now : ZonedDateTime) : LookupResult :=
  if pyLower city = "new york" then
    { status := "success"
      report := some ("The current time in " ++ city ++ " is " ++ strftimeZ now)
      error_message := none }
  else
    { status := "error"
      report := none
      error_message :=
        some ("Sorry, I don\x27t have timezone information for " ++ city ++ ".") }

/-- Substring occurrence test on character lists: `pat` occurs contiguously in
the scanned list. -/
def hasSubL (pat : List Char) : List Char → Bool
  | [] => pat.isEmpty
  | a :: l => pat.isPrefixOf (a :: l) || hasSubL pat l

/-- Substring occurrence test on strings (Python `pat in s`). -/
def containsSub (s pat : String) : Bool :=
  hasSubL pat.data s.data

/-- The characters of the word "sunny". -/
def sunnyL : List Char := ['s', 'u', 'n', 'n', 'y']

/-- The part of the weather error message before the interpolated city. -/
def aHeadL : List Char := "Weather information for \x27".data

/-- The part of the weather error message after the interpolated city. -/
def bTailL : List Char := "\x27 is not available.".data

/-- Consume exactly `n` decimal digits (the regex atom backslash-d repeated). -/
def chkD : Nat → List Char → Option (List Char)
  | 0, l => some l
  | _ + 1, [] => none
  | n + 1, a :: l => if a.isDigit then chkD n l else none

/-- Consume exactly the character `c`. -/
def chkC (c : Char) : List Char → Option (List Char)
  | [] => none
  | a :: l => if a = c then some l else none

/-- Consume exactly the literal character sequence `p`. -/
def chkLit : List Char → List Char → Option (List Char)
  | [], l => some l
  | _ :: _, [] => none
  | p :: ps, a :: l => if a = p then chkLit ps l else none

/-- Consume one sign character (the regex class of plus and minus). -/
def chkSign : List Char → Option (List Char)
  | [] => none
  | a :: l => if a = '+' ∨ a = '-' then some l else none

/-- Consume three or four uppercase ASCII letters followed by a sign
(the regex fragment `[A-Z]{3,4}[+-]`; the sign is not uppercase, so the
greedy match is unambiguous). -/
def chkAbbrSign : List Char → Option (List Char)
  | a :: b :: c :: l =>
    if a.isUpper && b.isUpper && c.isUpper then
      match l with
      | d :: l' => if d.isUpper then chkSign l' else chkSign l
      | [] => none
    else none
  | _ => none

/-- The anchored matcher for the spec pattern
`The current time in New York is \d\d\d\d-\d\d-\d\d \d\d:\d\d:\d\d [A-Z]{3,4}[+-]\d\d\d\d`,
run on a character list. -/
def timeChk (l : List Char) : Option (List Char) :=
  ((((((((((((((chkLit "The current time in New York is ".data l).bind
    (chkD 4)).bind (chkC '-')).bind (chkD 2)).bind (chkC '-')).bind
    (chkD 2)).bind (chkC ' ')).bind (chkD 2)).bind (chkC ':')).bind
    (chkD 2)).bind (chkC ':')).bind (chkD 2)).bind (chkC ' ')).bind
    chkAbbrSign).bind (chkD 4)

/-- Full-string match of the spec timestamp pattern. -/
def matchesTimePattern (s : String) : Bool :=
  timeChk s.data == some []

/-- Exactly one variant of the result dict is populated: the success tag with
only the report field, or the error tag with only the error message field. -/
def exactlyOneVariant (r : LookupResult) : Prop :=
  (r.status = "success" ∧ r.report.isSome ∧ r.error_message = none) ∨
  (r.status = "error" ∧ r.report = none ∧ r.error_message.isSome)

/-- Numeric value of an ASCII digit character. -/
def charVal (c : Char) : Nat := c.toNat - 48

/-- The civil-time fields of a zoned clock value packed into one number, in
lexicographic field order (the order of the formatted timestamp). -/
def localKey (d : ZonedDateTime) : Nat :=
  ((((d.year * 100 + d.month) * 100 + d.day) * 100 + d.hour) * 100 + d.minute)
    * 100 + d.second

/-- Read the civil-time fields back out of a formatted timestamp string
(4-digit year, then 2-digit fields at the fixed offsets of the format). -/
def parseTimestampKey (s : String) : Nat :=
  match s.data with
  | y1 :: y2 :: y3 :: y4 :: _ :: m1 :: m2 :: _ :: d1 :: d2 :: _ ::
      h1 :: h2 :: _ :: n1 :: n2 :: _ :: s1 :: s2 :: _ =>
    ((((((((charVal y1 * 10 + charVal y2) * 10 + charVal y3) * 10 + charVal y4)
        * 100 + (charVal m1 * 10 + charVal m2))
        * 100 + (charVal d1 * 10 + charVal d2))
        * 100 + (charVal h1 * 10 + charVal h2))
        * 100 + (charVal n1 * 10 + charVal n2))
        * 100 + (charVal s1 * 10 + charVal s2))
  | _ => 0

theorem hasSubL_append_left (p t : List Char) : hasSubL p (p ++ t) = true := by
  cases p with
  | nil =>
    cases t <;> simp [hasSubL, List.isPrefixOf]
  | cons a p' =>
    simp only [List.cons_append, hasSubL, Bool.or_eq_true]
    left
    rw [List.isPrefixOf_iff_prefix]
    exact ⟨t, by simp⟩

theorem hasSubL_append_right (p s t : List Char) (h : hasSubL p t = true) :
    hasSubL p (s ++ t) = true := by
  induction s with
  | nil => simpa using h
  | cons a s ih =>
    simp only [List.cons_append, hasSubL, Bool.or_eq_true]
    exact Or.inr ih

theorem hasSubL_sunny_skip (xs ys : List Char) (hx : ∀ a ∈ xs, a ≠ 's') :
    hasSubL sunnyL (xs ++ ys) = hasSubL sunnyL ys := by
  induction xs with
  | nil => simp
  | cons a xs ih =>
    have ha : ('s' == a) = false :=
      beq_eq_false_iff_ne.mpr (Ne.symm (hx a (List.mem_cons_self a xs)))
    simp only [List.cons_append, hasSubL, sunnyL, List.isPrefixOf, ha,
      Bool.false_and, Bool.false_or]
    exact ih fun b hb => hx b (List.mem_cons_of_mem a hb)

theorem sunny_isPrefixOf_through (u : List Char)
    (h : sunnyL.isPrefixOf (u ++ bTailL) = true) : sunnyL.isPrefixOf u = true := by
  match u with
  | [] => exact absurd h (by decide)
  | [a] =>
    rw [show sunnyL.isPrefixOf ([a] ++ bTailL) =
          (('s' == a) && (['u', 'n', 'n', 'y'] : List Char).isPrefixOf bTailL) from rfl,
      show (['u', 'n', 'n', 'y'] : List Char).isPrefixOf bTailL = false from by decide,
      Bool.and_false] at h
    exact absurd h (by decide)
  | [a, b] =>
    rw [show sunnyL.isPrefixOf ([a, b] ++ bTailL) =
          (('s' == a) && (('u' == b) &&
            (['n', 'n', 'y'] : List Char).isPrefixOf bTailL)) from rfl,
      show (['n', 'n', 'y'] : List Char).isPrefixOf bTailL = false from by decide,
      Bool.and_false, Bool.and_false] at h
    exact absurd h (by decide)
  | [a, b, c] =>
    rw [show sunnyL.isPrefixOf ([a, b, c] ++ bTailL) =
          (('s' == a) && (('u' == b) && (('n' == c) &&
            (['n', 'y'] : List Char).isPrefixOf bTailL))) from rfl,
      show (['n', 'y'] : List Char).isPrefixOf bTailL = false from by decide,
      Bool.and_false, Bool.and_false, Bool.and_false] at h
    exact absurd h (by decide)
  | [a, b, c, d] =>
    rw [show sunnyL.isPrefixOf ([a, b, c, d] ++ bTailL) =
          (('s' == a) && (('u' == b) && (('n' == c) && (('n' == d) &&
            (['y'] : List Char).isPrefixOf bTailL)))) from rfl,
      show (['y'] : List Char).isPrefixOf bTailL = false from by decide,
      Bool.and_false, Bool.and_false, Bool.and_false, Bool.and_false] at h
    exact absurd h (by decide)
  | a :: b :: c :: d :: e :: rest =>
    simp only [sunnyL, List.cons_append, List.isPrefixOf] at h ⊢
    simpa using h

theorem hasSubL_sunny_strip (l : List Char)
    (h : hasSubL sunnyL (l ++ bTailL) = true) : hasSubL sunnyL l = true := by
  induction l with
  | nil => exact absurd h (by decide)
  | cons a l ih =>
    simp only [List.cons_append, hasSubL, Bool.or_eq_true] at h ⊢
    rcases h with hp | ht
    · left
      exact sunny_isPrefixOf_through (a :: l) (by simpa using hp)
    · right
      exact ih ht

theorem sunny_in_weather_error (c : String)
    (h : hasSubL sunnyL (aHeadL ++ c.data ++ bTailL) = true) :
    hasSubL sunnyL c.data = true := by
  rw [List.append_assoc, hasSubL_sunny_skip aHeadL (c.data ++ bTailL) (by decide)] at h
  exact hasSubL_sunny_strip c.data h

theorem str_data_append (a b : String) : (a ++ b).data = a.data ++ b.data := rfl

theorem optSomeBind {α β : Type} (a : α) (f : α → Option β) :
    (some a).bind f = f a := rfl

theorem chkLit_self (p r : List Char) : chkLit p (p ++ r) = some r := by
  induction p with
  | nil => rfl
  | cons a p ih => simp [chkLit, ih]

theorem digitChar_isDigit (k : Nat) (h : k < 10) : (Nat.digitChar k).isDigit = true := by
  interval_cases k <;> decide

theorem chkD_cons_digit (n : Nat) (a : Char) (l : List Char) (h : a.isDigit = true) :
    chkD (n + 1) (a :: l) = chkD n l := by
  simp [chkD, h]

theorem chkD_pad2 (n : Nat) (r : List Char) : chkD 2 ((pad2 n).data ++ r) = some r := by
  show chkD (0 + 1 + 1) (Nat.digitChar (n / 10 % 10) :: Nat.digitChar (n % 10) :: r) = some r
  rw [chkD_cons_digit _ _ _ (digitChar_isDigit _ (Nat.mod_lt _ (by norm_num))),
    chkD_cons_digit _ _ _ (digitChar_isDigit _ (Nat.mod_lt _ (by norm_num)))]
  rfl

theorem chkD_pad4 (n : Nat) (r : List Char) : chkD 4 ((pad4 n).data ++ r) = some r := by
  show chkD (0 + 1 + 1 + 1 + 1)
    (Nat.digitChar (n / 1000 % 10) :: Nat.digitChar (n / 100 % 10) ::
      Nat.digitChar (n / 10 % 10) :: Nat.digitChar (n % 10) :: r) = some r
  rw [chkD_cons_digit _ _ _ (digitChar_isDigit _ (Nat.mod_lt _ (by norm_num))),
    chkD_cons_digit _ _ _ (digitChar_isDigit _ (Nat.mod_lt _ (by norm_num))),
    chkD_cons_digit _ _ _ (digitChar_isDigit _ (Nat.mod_lt _ (by norm_num))),
    chkD_cons_digit _ _ _ (digitChar_isDigit _ (Nat.mod_lt _ (by norm_num)))]
  rfl

theorem chkC_cons (c : Char) (r : List Char) : chkC c (c :: r) = some r := by
  simp [chkC]

theorem strftimeZ_data (d : ZonedDateTime) :
    (strftimeZ d).data =
      (pad4 d.year).data ++ '-' :: ((pad2 d.month).data ++ '-' ::
        ((pad2 d.day).data ++ ' ' :: ((pad2 d.hour).data ++ ':' ::
          ((pad2 d.minute).data ++ ':' :: ((pad2 d.second).data ++ ' ' ::
            (d.tzAbbr.data ++ d.utcOffset.data)))))) := by
  simp only [strftimeZ, str_data_append, List.append_assoc,
    show ("-" : String).data = ['-'] from rfl,
    show (" " : String).data = [' '] from rfl,
    show (":" : String).data = [':'] from rfl,
    List.cons_append, List.nil_append]

/-- C1: matching input (lowercase form "new york") yields the success dict
with exactly the canned weather report. -/
theorem get_weather_match (city : String) (h : pyLower city = "new york") :
    get_weather city =
      { status := "success", report := some weatherReport, error_message := none } := by
  simp [get_weather, h]

/-- Witness for `get_weather_match` at the concrete input "New York". -/
theorem get_weather_match_witness :
    get_weather "New York" =
      { status := "success", report := some weatherReport, error_message := none } :=
  get_weather_match "New York" (by decide)

/-- C2 counterexample: the input "sunny" has lowercase form different from
"new york", yet the error message returned for it does contain the word
"sunny" (interpolated verbatim from the input), refuting the claimed absence
of "sunny" from every non-matching error message. -/
theorem get_weather_sunny_counterexample :
    pyLower "sunny" ≠ "new york" ∧
    (get_weather "sunny").error_message =
      some "Weather information for \x27sunny\x27 is not available." ∧
    containsSub "Weather information for \x27sunny\x27 is not available." "sunny" = true := by
  refine ⟨by decide, by decide, by decide⟩

/-- C2 amended: non-matching input yields the error dict whose message is
exactly the interpolation of the original input; the message contains the
input verbatim; the message contains "sunny" only when the input itself
contains "sunny"; and the "Beijing" instance is exact. -/
theorem get_weather_nomatch (c : String) (h : pyLower c ≠ "new york") :
    get_weather c =
      { status := "error", report := none,
        error_message :=
          some ("Weather information for \x27" ++ c ++ "\x27 is not available.") } ∧
    containsSub ("Weather information for \x27" ++ c ++ "\x27 is not available.") c = true ∧
    (containsSub ("Weather information for \x27" ++ c ++ "\x27 is not available.")
        "sunny" = true →
      containsSub c "sunny" = true) ∧
    (get_weather "Beijing").error_message =
      some "Weather information for \x27Beijing\x27 is not available." := by
  have hdata :
      ("Weather information for \x27" ++ c ++ "\x27 is not available.").data =
        aHeadL ++ c.data ++ bTailL := by
    show ("Weather information for \x27".data ++ c.data) ++
        "\x27 is not available.".data = aHeadL ++ c.data ++ bTailL
    rfl
  refine ⟨by simp [get_weather, h], ?_, ?_, by decide⟩
  · show hasSubL c.data
      ("Weather information for \x27" ++ c ++ "\x27 is not available.").data = true
    rw [hdata, List.append_assoc]
    exact hasSubL_append_right c.data aHeadL (c.data ++ bTailL)
      (hasSubL_append_left c.data bTailL)
  · intro hs
    show hasSubL "sunny".data c.data = true
    rw [show "sunny".data = sunnyL from rfl]
    apply sunny_in_weather_error
    rw [← hdata]
    exact hs

/-- Witness for `get_weather_nomatch` at the concrete input "Paris". -/
theorem get_weather_nomatch_witness :
    get_weather "Paris" =
      { status := "error", report := none,
        error_message :=
          some ("Weather information for \x27" ++ "Paris" ++ "\x27 is not available.") } ∧
    containsSub ("Weather information for \x27" ++ "Paris" ++ "\x27 is not available.")
        "Paris" = true ∧
    (containsSub ("Weather information for \x27" ++ "Paris" ++ "\x27 is not available.")
        "sunny" = true →
      containsSub "Paris" "sunny" = true) ∧
    (get_weather "Beijing").error_message =
      some "Weather information for \x27Beijing\x27 is not available." :=
  get_weather_nomatch "Paris" (by decide)

/-- C3: non-matching input yields the error dict with exactly the message
interpolating the original input verbatim. -/
theorem get_current_time_nomatch (c : String) (now : ZonedDateTime)
    (h : pyLower c ≠ "new york") :
    get_current_time c now =
      { status := "error", report := none,
        error_message :=
          some ("Sorry, I don\x27t have timezone information for " ++ c ++ ".") } := by
  simp [get_current_time, h]

/-- Witness for `get_current_time_nomatch` at the concrete input "Beijing". -/
theorem get_current_time_nomatch_witness :
    get_current_time "Beijing" ⟨2023, 4, 1, 14, 30, 45, "EDT", "-0400"⟩ =
      { status := "error", report := none,
        error_message :=
          some "Sorry, I don\x27t have timezone information for Beijing." } :=
  get_current_time_nomatch "Beijing" ⟨2023, 4, 1, 14, 30, 45, "EDT", "-0400"⟩ (by decide)

/-- C5: the three case variants of the supported city all produce the identical
success report, the match uses no normalization beyond case (a padded spelling
is rejected), and any two inputs equal up to case take the same branch. -/
theorem get_weather_case_insensitive :
    ((get_weather "New York").report = some weatherReport ∧
     (get_weather "new york").report = some weatherReport ∧
     (get_weather "NEW YORK").report = some weatherReport) ∧
    (get_weather " new york").status = "error" ∧
    ∀ a b : String, pyLower a = pyLower b →
      (get_weather a).status = (get_weather b).status := by
  refine ⟨by decide, by decide, ?_⟩
  intro a b hab
  unfold get_weather
  rw [hab]
  by_cases h : pyLower b = "new york" <;> simp [h]

/-- Witness for `get_weather_case_insensitive` at a concrete case-variant pair. -/
theorem get_weather_case_insensitive_witness :
    (get_weather "NeW yOrK").status = (get_weather "nEw YoRk").status :=
  get_weather_case_insensitive.2.2 "NeW yOrK" "nEw YoRk" (by decide)

/-- C6: every value either tool returns populates exactly one variant. -/
theorem tools_exactly_one_variant (c : String) (now : ZonedDateTime) :
    exactlyOneVariant (get_weather c) ∧ exactlyOneVariant (get_current_time c now) := by
  by_cases h : pyLower c = "new york" <;>
    simp [exactlyOneVariant, get_weather, get_current_time, h]

/-- C7: both tools are total on every string input — the result is always one
of the two tagged variants, never an abort — and on a non-matching input
`get_current_time` produces its error variant without consulting the ambient
clock or timezone database (its result is the same for every `now`). -/
theorem tools_never_throw (c : String) (now : ZonedDateTime) :
    ((get_weather c).status = "success" ∨ (get_weather c).status = "error") ∧
    ((get_current_time c now).status = "success" ∨
      (get_current_time c now).status = "error") ∧
    (pyLower c ≠ "new york" → (get_current_time c now).status = "error") := by
  unfold get_weather get_current_time
  by_cases h : pyLower c = "new york" <;> simp [h]

/-- Witness for `tools_never_throw` at the concrete input "Tokyo". -/
theorem tools_never_throw_witness :
    (get_current_time "Tokyo" ⟨2023, 4, 1, 14, 30, 45, "EDT", "-0400"⟩).status = "error" :=
  (tools_never_throw "Tokyo" ⟨2023, 4, 1, 14, 30, 45, "EDT", "-0400"⟩).2.2 (by decide)

/-- C9: the two tools accept exactly the same inputs — `get_weather` succeeds
iff `get_current_time` succeeds, and both succeed exactly on inputs whose
lowercase form is "new york". -/
theorem tools_accept_sets_agree (c : String) (now : ZonedDateTime) :
    ((get_weather c).status = "success" ↔ (get_current_time c now).status = "success") ∧
    ((get_weather c).status = "success" ↔ pyLower c = "new york") := by
  by_cases h : pyLower c = "new york" <;> simp [get_weather, get_current_time, h]

/-- C10: on a non-matching input the result of `get_current_time` is
independent of the ambient clock reading; `get_weather` reads no clock at all
(its embedding takes no clock argument), so its determinism is structural. -/
theorem get_current_time_error_time_independent (c : String) (n1 n2 : ZonedDateTime)
    (h : pyLower c ≠ "new york") :
    get_current_time c n1 = get_current_time c n2 := by
  simp [get_current_time, h]

/-- Witness for `get_current_time_error_time_independent` at "London" and two
distinct clock readings. -/
theorem get_current_time_error_time_independent_witness :
    get_current_time "London" ⟨2023, 4, 1, 14, 30, 45, "EDT", "-0400"⟩ =
      get_current_time "London" ⟨2024, 12, 31, 23, 59, 59, "EST", "-0500"⟩ :=
  get_current_time_error_time_independent "London"
    ⟨2023, 4, 1, 14, 30, 45, "EDT", "-0400"⟩
    ⟨2024, 12, 31, 23, 59, 59, "EST", "-0500"⟩ (by decide)

theorem strftimeZ_data_cons (d : ZonedDateTime) :
    (strftimeZ d).data =
      Nat.digitChar (d.year / 1000 % 10) :: Nat.digitChar (d.year / 100 % 10) ::
      Nat.digitChar (d.year / 10 % 10) :: Nat.digitChar (d.year % 10) :: '-' ::
      Nat.digitChar (d.month / 10 % 10) :: Nat.digitChar (d.month % 10) :: '-' ::
      Nat.digitChar (d.day / 10 % 10) :: Nat.digitChar (d.day % 10) :: ' ' ::
      Nat.digitChar (d.hour / 10 % 10) :: Nat.digitChar (d.hour % 10) :: ':' ::
      Nat.digitChar (d.minute / 10 % 10) :: Nat.digitChar (d.minute % 10) :: ':' ::
      Nat.digitChar (d.second / 10 % 10) :: Nat.digitChar (d.second % 10) ::
      ' ' :: (d.tzAbbr.data ++ d.utcOffset.data) := by
  rw [strftimeZ_data]
  simp only [show ∀ n, (pad2 n).data =
      [Nat.digitChar (n / 10 % 10), Nat.digitChar (n % 10)] from fun n => rfl,
    show ∀ n, (pad4 n).data =
      [Nat.digitChar (n / 1000 % 10), Nat.digitChar (n / 100 % 10),
        Nat.digitChar (n / 10 % 10), Nat.digitChar (n % 10)] from fun n => rfl,
    List.cons_append, List.nil_append]

theorem charVal_digitChar (k : Nat) (h : k < 10) : charVal (Nat.digitChar k) = k := by
  interval_cases k <;> decide

theorem charVal_digitChar_mod (m : Nat) :
    charVal (Nat.digitChar (m % 10)) = m % 10 :=
  charVal_digitChar _ (Nat.mod_lt _ (by norm_num))

theorem parseTimestampKey_strftimeZ (d : ZonedDateTime) (hv : ValidNY d) :
    parseTimestampKey (strftimeZ d) = localKey d := by
  obtain ⟨hy1, hy2, hm1, hm2, hd1, hd2, hh, hmin, hsec, -, -⟩ := hv
  unfold parseTimestampKey
  rw [strftimeZ_data_cons]
  simp only [charVal_digitChar_mod]
  unfold localKey
  omega

/-- C4: matching input yields the success dict whose report is the fixed
sentence with the original input embedded, followed by the zoned timestamp;
for the literal input "New York" the report matches the spec pattern
(four-digit date, two-digit time fields, 3-4 uppercase zone letters, signed
four-digit offset). -/
theorem get_current_time_match (city : String) (now : ZonedDateTime)
    (hc : pyLower city = "new york") (hv : ValidNY now) :
    get_current_time city now =
      { status := "success",
        report := some ("The current time in " ++ city ++ " is " ++ strftimeZ now),
        error_message := none } ∧
    (city = "New York" →
      matchesTimePattern
        ("The current time in " ++ city ++ " is " ++ strftimeZ now) = true) := by
  obtain ⟨-, -, -, -, -, -, -, -, -, habbr, hoff⟩ := hv
  constructor
  · simp [get_current_time, hc]
  · intro he
    subst he
    have hshape : ("The current time in " ++ "New York" ++ " is " ++ strftimeZ now).data
        = "The current time in New York is ".data ++ (strftimeZ now).data := by
      rw [show "The current time in " ++ "New York" ++ " is "
            = "The current time in New York is " from by decide]
      exact str_data_append _ _
    show (timeChk ("The current time in " ++ "New York" ++ " is " ++ strftimeZ now).data
        == some []) = true
    rw [hshape, strftimeZ_data]
    unfold timeChk
    rw [chkLit_self, optSomeBind, chkD_pad4, optSomeBind, chkC_cons, optSomeBind,
      chkD_pad2, optSomeBind, chkC_cons, optSomeBind, chkD_pad2, optSomeBind,
      chkC_cons, optSomeBind, chkD_pad2, optSomeBind, chkC_cons, optSomeBind,
      chkD_pad2, optSomeBind, chkC_cons, optSomeBind, chkD_pad2, optSomeBind,
      chkC_cons, optSomeBind]
    rcases habbr with h1 | h1 <;> rcases hoff with h2 | h2 <;> rw [h1, h2] <;> decide

/-- Witness for `get_current_time_match` at "New York" and a concrete
daylight-saving clock value. -/
theorem get_current_time_match_witness :
    get_current_time "New York" ⟨2025, 10, 12, 9, 30, 0, "EDT", "-0400"⟩ =
      { status := "success",
        report := some ("The current time in " ++ "New York" ++ " is " ++
          strftimeZ ⟨2025, 10, 12, 9, 30, 0, "EDT", "-0400"⟩),
        error_message := none } ∧
    ("New York" = "New York" →
      matchesTimePattern ("The current time in " ++ "New York" ++ " is " ++
        strftimeZ ⟨2025, 10, 12, 9, 30, 0, "EDT", "-0400"⟩) = true) :=
  get_current_time_match "New York" ⟨2025, 10, 12, 9, 30, 0, "EDT", "-0400"⟩
    (by decide) (by decide)

/-- C8: two calls of `get_weather` on "New York" give byte-identical results
(the function is pure in the embedding); two calls of `get_current_time` on
"New York" give reports that share the whole non-timestamp portion and differ
only in the trailing formatted timestamp; and when the clock does not go
backwards between the calls, the civil-time fields read back from the two
embedded timestamps are non-decreasing. -/
theorem get_time_reports_monotone (n1 n2 : ZonedDateTime)
    (h1 : ValidNY n1) (h2 : ValidNY n2) :
    get_weather "New York" = get_weather "New York" ∧
    (∃ p, (get_current_time "New York" n1).report = some (p ++ strftimeZ n1) ∧
      (get_current_time "New York" n2).report = some (p ++ strftimeZ n2)) ∧
    (localKey n1 ≤ localKey n2 →
      parseTimestampKey (strftimeZ n1) ≤ parseTimestampKey (strftimeZ n2)) := by
  refine ⟨rfl, ⟨"The current time in New York is ", ?_, ?_⟩, ?_⟩
  · rw [show ("The current time in New York is " : String)
        = "The current time in " ++ "New York" ++ " is " from by decide]
    simp [get_current_time, show pyLower "New York" = "new york" from by decide]
  · rw [show ("The current time in New York is " : String)
        = "The current time in " ++ "New York" ++ " is " from by decide]
    simp [get_current_time, show pyLower "New York" = "new york" from by decide]
  · intro hle
    rw [parseTimestampKey_strftimeZ n1 h1, parseTimestampKey_strftimeZ n2 h2]
    exact hle

/-- Witness for `get_time_reports_monotone` at two concrete clock values one
second apart. -/
theorem get_time_reports_monotone_witness :
    get_weather "New York" = get_weather "New York" ∧
    (∃ p, (get_current_time "New York" ⟨2025, 10, 12, 9, 30, 0, "EDT", "-0400"⟩).report
        = some (p ++ strftimeZ ⟨2025, 10, 12, 9, 30, 0, "EDT", "-0400"⟩) ∧
      (get_current_time "New York" ⟨2025, 10, 12, 9, 30, 1, "EDT", "-0400"⟩).report
        = some (p ++ strftimeZ ⟨2025, 10, 12, 9, 30, 1, "EDT", "-0400"⟩)) ∧
    (localKey ⟨2025, 10, 12, 9, 30, 0, "EDT", "-0400"⟩ ≤
        localKey ⟨2025, 10, 12, 9, 30, 1, "EDT", "-0400"⟩ →
      parseTimestampKey (strftimeZ ⟨2025, 10, 12, 9, 30, 0, "EDT", "-0400"⟩) ≤
        parseTimestampKey (strftimeZ ⟨2025, 10, 12, 9, 30, 1, "EDT", "-0400"⟩)) :=
  get_time_reports_monotone
    ⟨2025, 10, 12, 9, 30, 0, "EDT", "-0400"⟩
    ⟨2025, 10, 12, 9, 30, 1, "EDT", "-0400"⟩ (by decide) (by decide)
